import Mathlib

/-!
Shallow embedding of `src/backend/controllers/eventController.js` from the
MapplsAppathon prototype: an event CRUD layer with paired geofence records.

The two document stores (Events and Geofences) are modelled as lists held in
a `DB` state; every mutating handler takes the state and returns the result
of the request (`Except Err _`, where `Err` carries the HTTP status code the
controller throws with) together with the state after the request.  Mongo
document ids are strings; JS numbers appearing in the claims (coordinates,
radius, distance) are modelled as rationals; `Date` values as integers
(milliseconds).  The JavaScript `x || d` default idiom is modelled by
`jsOrNum` / `jsOrStr`, which are faithful to JS truthiness on the types at
hand: `0` and the missing field are falsy for numbers, `""` and the missing
field are falsy for strings.
-/

/-- Geographic coordinates `{latitude, longitude}` as stored on an Event and
on a Geofence's `center`. -/
structure Coordinates where
  latitude : ℚ
  longitude : ℚ
deriving DecidableEq, Repr

/-- An Event document, with the fields the controller reads or writes.
Field inventory follows the spec's data model (the Mongoose schema file
`models/Event.js` is not under `src/`). -/
structure Event where
  id : String
  title : String
  category : String
  date : ℤ
  status : String
  coordinates : Coordinates
  organizer : String
deriving DecidableEq, Repr

/-- A Geofence document.  `trafficDescription` is optional because
`updateEvent` replaces the whole `trafficImpact` subdocument with one that
has only a `level`. -/
structure Geofence where
  id : String
  event : String
  radius : ℚ
  center : Coordinates
  trafficLevel : String
  trafficDescription : Option String
  createdBy : String
deriving DecidableEq, Repr

/-- The authenticated caller attached by upstream middleware (`req.user`). -/
structure User where
  id : String
  role : String
deriving DecidableEq, Repr

/-- The request body (`req.body`) with the fields the controller touches;
absent fields are `none`. -/
structure ReqBody where
  title : Option String := none
  category : Option String := none
  date : Option ℤ := none
  status : Option String := none
  coordinates : Option Coordinates := none
  organizer : Option String := none
  geofenceRadius : Option ℚ := none
  trafficImpact : Option String := none
deriving DecidableEq, Repr

/-- The two document stores. -/
structure DB where
  events : List Event
  geofences : List Geofence
deriving DecidableEq, Repr

/-- An `ErrorResponse(message, statusCode)` thrown by a handler. -/
structure Err where
  message : String
  statusCode : ℕ
deriving DecidableEq, Repr

/-- JS `x || d` for an optional number: `undefined` and `0` are falsy. -/
def jsOrNum (x : Option ℚ) (d : ℚ) : ℚ :=
  match x with
  | none => d
  | some v => if v = 0 then d else v

/-- JS `s || d` for an optional string: `undefined` and `""` are falsy. -/
def jsOrStr (x : Option String) (d : String) : String :=
  match x with
  | none => d
  | some v => if v = "" then d else v

/-- `Event.findById`: first document whose id matches (ids are unique in
Mongo; the embedding keeps `find?`'s first-match semantics). -/
def findEvent (db : DB) (id : String) : Option Event :=
  db.events.find? (fun e => e.id = id)

/-- Modelled from the spec: `Event.create(req.body)` for the schema in the
absent `models/Event.js`.  `title` and `coordinates` are required (the
controller dereferences both on the created document), `status` defaults to
`"upcoming"`; validation failure yields `none`. -/
def eventCreate (body : ReqBody) (newId : String) : Option Event :=
  match body.title, body.coordinates with
  | some t, some c =>
      some { id := newId
             title := t
             category := body.category.getD ""
             date := body.date.getD 0
             status := body.status.getD "upcoming"
             coordinates := c
             organizer := body.organizer.getD "" }
  | _, _ => none

/-- `createEvent`: overwrite `req.body.organizer` with the caller's id,
reject callers whose role is neither `"ngo"` nor `"admin"` with a 403,
persist the Event, then persist the paired Geofence.  `newEventId` and
`newGeofenceId` stand for the ids Mongo generates. -/
def createEvent (user : User) (body : ReqBody) (db : DB)
    (newEventId newGeofenceId : String) : Except Err Event × DB :=
  let body := { body with organizer := some user.id }
  if user.role ≠ "ngo" ∧ user.role ≠ "admin" then
    (.error ⟨"User with role " ++ user.role ++
        " is not authorized to create an event", 403⟩, db)
  else
    match eventCreate body newEventId with
    | none => (.error ⟨"Validation failed", 400⟩, db)
    | some event =>
        let fence : Geofence :=
          { id := newGeofenceId
            event := event.id
            radius := jsOrNum body.geofenceRadius 500
            center := { latitude := event.coordinates.latitude
                        longitude := event.coordinates.longitude }
            trafficLevel := jsOrStr body.trafficImpact "low"
            trafficDescription := some ("Traffic impact for " ++ event.title)
            createdBy := user.id }
        (.ok event,
         { events := db.events ++ [event]
           geofences := db.geofences ++ [fence] })

/-- `Event.findByIdAndUpdate(id, req.body)` applied to one document: each
field present in the body replaces the stored field, absent fields are left
alone.  Mongoose updates every schema field present in the update document,
`organizer` included. -/
def applyBody (e : Event) (body : ReqBody) : Event :=
  { e with
    title := body.title.getD e.title
    category := body.category.getD e.category
    date := body.date.getD e.date
    status := body.status.getD e.status
    coordinates := body.coordinates.getD e.coordinates
    organizer := body.organizer.getD e.organizer }

/-- The update document `updateEvent` hands to `Geofence.findOneAndUpdate`
when the body carries coordinates: new center, `radius` and
`trafficImpact.level` rebuilt with the JS `||` defaults, and the whole
`trafficImpact` subdocument replaced (so no `description` remains). -/
def geofencePatch (g : Geofence) (c : Coordinates) (body : ReqBody) : Geofence :=
  { g with
    center := { latitude := c.latitude, longitude := c.longitude }
    radius := jsOrNum body.geofenceRadius 500
    trafficLevel := jsOrStr body.trafficImpact "low"
    trafficDescription := none }

/-- `Geofence.findOneAndUpdate({event: id}, patch)`: rewrite the first
geofence paired with `id`; a no-op when none matches. -/
def patchFirstGeofence (gs : List Geofence) (id : String)
    (patch : Geofence → Geofence) : List Geofence :=
  match gs with
  | [] => []
  | g :: rest =>
      if g.event = id then patch g :: rest
      else g :: patchFirstGeofence rest id patch

/-- `Geofence.findOneAndDelete({event: id})`: drop the first geofence paired
with `id`; a no-op when none matches. -/
def deleteFirstGeofence (gs : List Geofence) (id : String) : List Geofence :=
  match gs with
  | [] => []
  | g :: rest => if g.event = id then rest else g :: deleteFirstGeofence rest id

/-- `event.deleteOne()`: remove the fetched document (the first one with
this id) from the store. -/
def deleteFirstEvent (es : List Event) (id : String) : List Event :=
  match es with
  | [] => []
  | e :: rest => if e.id = id then rest else e :: deleteFirstEvent rest id

/-- `updateEvent`: fetch (404 when absent), authorize (403 unless the caller
is the organizer or an admin), apply the body to the Event, and when the
body carries coordinates also rewrite the paired Geofence (no-op when none
exists). -/
def updateEvent (user : User) (id : String) (body : ReqBody) (db : DB) :
    Except Err Event × DB :=
  match findEvent db id with
  | none =>
      (.error ⟨"Event not found with id of " ++ id, 404⟩, db)
  | some event =>
      if event.organizer ≠ user.id ∧ user.role ≠ "admin" then
        (.error ⟨"User " ++ user.id ++
            " is not authorized to update this event", 403⟩, db)
      else
        let updated := applyBody event body
        let events := db.events.map (fun e => if e.id = id then updated else e)
        let geofences :=
          match body.coordinates with
          | none => db.geofences
          | some c =>
              patchFirstGeofence db.geofences updated.id
                (fun g => geofencePatch g c body)
        (.ok updated, { events := events, geofences := geofences })

/-- `deleteEvent`: fetch (404 when absent), authorize (403 unless the caller
is the organizer or an admin), delete the paired Geofence (no-op when
absent), then delete the Event; responds with an empty success payload. -/
def deleteEvent (user : User) (id : String) (db : DB) : Except Err Unit × DB :=
  match findEvent db id with
  | none =>
      (.error ⟨"Event not found with id of " ++ id, 404⟩, db)
  | some event =>
      if event.organizer ≠ user.id ∧ user.role ≠ "admin" then
        (.error ⟨"User " ++ user.id ++
            " is not authorized to delete this event", 403⟩, db)
      else
        (.ok (),
         { events := deleteFirstEvent db.events event.id
           geofences := deleteFirstGeofence db.geofences event.id })

/-- `getEventsInRadius`: the controller computes `radius = distance / 6378`
and asks the store for the events inside the spherical cap of that angular
radius around `(latitude, longitude)`.  The cap membership test itself is
Mongo's `$geoWithin`/`$centerSphere` — an external collaborator — so it is
modelled from the spec as a parameter `angDist` giving the angular distance
(in radians) between two coordinate pairs; an event is returned exactly when
its angular distance from the query point is at most the computed radius. -/
def getEventsInRadius (angDist : Coordinates → Coordinates → ℚ) (db : DB)
    (latitude longitude distance : ℚ) : List Event :=
  let radius := distance / 6378
  db.events.filter
    (fun e =>
      decide (angDist { latitude := latitude, longitude := longitude }
        e.coordinates ≤ radius))

/-- Date order on events, the `sort({date: 1})` key. -/
def dateLE (a b : Event) : Prop := a.date ≤ b.date

instance : DecidableRel dateLE := fun a b => Int.decLe a.date b.date

instance : IsTotal Event dateLE := ⟨fun a b => Int.le_total a.date b.date⟩

instance : IsTrans Event dateLE := ⟨fun _ _ _ hab hbc => le_trans hab hbc⟩

/-- `getUpcomingEvents`: events with `date ≥ now` and status `"upcoming"`,
sorted ascending by date, limited to 10. -/
def getUpcomingEvents (now : ℤ) (db : DB) : List Event :=
  (List.insertionSort dateLE
      (db.events.filter
        (fun e => decide (now ≤ e.date) && e.status == "upcoming"))).take 10

/-- Store well-formedness used by delete: document ids are unique and at
most one geofence pairs any given event (the spec's soft 1:1 invariant). -/
def DB.wf (db : DB) : Prop :=
  (db.events.map Event.id).Nodup ∧ (db.geofences.map Geofence.event).Nodup

instance (db : DB) : Decidable db.wf := by
  unfold DB.wf; infer_instance

/-- When event ids are unique, any stored event with the looked-up id is the
one `findEvent` returns. -/
theorem findEvent_unique (id : String) (ev : Event) :
    ∀ es : List Event, (es.map Event.id).Nodup →
      es.find? (fun e => e.id = id) = some ev →
      ∀ e ∈ es, e.id = id → e = ev := by
  intro es
  induction es with
  | nil => intro _ hf; simp at hf
  | cons a l ih =>
      intro hnd hf e he hid
      simp only [List.map_cons, List.nodup_cons] at hnd
      by_cases ha : a.id = id
      · have hfa : a = ev := by
          rw [List.find?_cons_of_pos] at hf
          · exact Option.some.inj hf
          · simp [ha]
        rcases List.mem_cons.mp he with rfl | he'
        · exact hfa
        · exact absurd (by rw [ha, ← hid]; exact List.mem_map_of_mem Event.id he')
            hnd.1
      · rcases List.mem_cons.mp he with rfl | he'
        · exact absurd hid ha
        · rw [List.find?_cons_of_neg] at hf
          · exact ih hnd.2 hf e he' hid
          · simp [ha]

/-- Anatomy of a successful `createEvent`: the persisted Event carries the
caller's id as organizer and the generated id, and each store grows by
exactly the one new document. -/
theorem createEvent_ok (user : User) (body : ReqBody) (db : DB)
    (newEventId newGeofenceId : String) (ev : Event) (db' : DB)
    (h : createEvent user body db newEventId newGeofenceId = (.ok ev, db')) :
    ev.organizer = user.id ∧ ev.id = newEventId ∧
    db'.events = db.events ++ [ev] ∧
    db'.geofences = db.geofences ++
      [{ id := newGeofenceId
         event := ev.id
         radius := jsOrNum body.geofenceRadius 500
         center := { latitude := ev.coordinates.latitude
                     longitude := ev.coordinates.longitude }
         trafficLevel := jsOrStr body.trafficImpact "low"
         trafficDescription := some ("Traffic impact for " ++ ev.title)
         createdBy := user.id }] := by
  unfold createEvent at h
  split at h
  · simp at h
  · simp only [] at h
    cases hcreate : eventCreate { body with organizer := some user.id } newEventId with
    | none => rw [hcreate] at h; simp at h
    | some event =>
        rw [hcreate] at h
        simp only [Prod.mk.injEq, Except.ok.injEq] at h
        obtain ⟨rfl, rfl⟩ := h
        unfold eventCreate at hcreate
        cases htitle : body.title with
        | none => rw [htitle] at hcreate; simp at hcreate
        | some t =>
            cases hco : body.coordinates with
            | none => rw [htitle, hco] at hcreate; simp at hcreate
            | some c =>
                rw [htitle, hco] at hcreate
                simp only [Option.some.injEq] at hcreate
                subst hcreate
                exact ⟨rfl, rfl, rfl, rfl⟩

/-- Anatomy of a successful `updateEvent`: the target existed, the caller
was authorized, the returned Event is the stored one with the body applied,
and the stores are rewritten accordingly. -/
theorem updateEvent_ok (user : User) (id : String) (body : ReqBody) (db : DB)
    (ev : Event) (db' : DB)
    (h : updateEvent user id body db = (.ok ev, db')) :
    ∃ ev0, findEvent db id = some ev0 ∧
      (ev0.organizer = user.id ∨ user.role = "admin") ∧
      ev = applyBody ev0 body ∧
      db'.events = db.events.map (fun e => if e.id = id then ev else e) ∧
      db'.geofences =
        match body.coordinates with
        | none => db.geofences
        | some c =>
            patchFirstGeofence db.geofences ev.id
              (fun g => geofencePatch g c body) := by
  unfold updateEvent at h
  split at h
  · simp at h
  · rename_i ev0 hf
    split at h
    · simp at h
    · rename_i hauth
      have h1 : Except.ok (applyBody ev0 body) = Except.ok ev :=
        congrArg Prod.fst h
      have h2 : DB.mk
            (db.events.map (fun e => if e.id = id then applyBody ev0 body else e))
            (match body.coordinates with
              | none => db.geofences
              | some c =>
                  patchFirstGeofence db.geofences (applyBody ev0 body).id
                    (fun g => geofencePatch g c body)) = db' :=
        congrArg Prod.snd h
      obtain rfl := Except.ok.inj h1
      subst h2
      refine ⟨ev0, hf, ?_, rfl, rfl, rfl⟩
      rcases not_and_or.mp hauth with h1 | h1
      · exact Or.inl (not_not.mp h1)
      · exact Or.inr (not_not.mp h1)

theorem deleteFirstGeofence_sublist (gs : List Geofence) (id : String) :
    (deleteFirstGeofence gs id).Sublist gs := by
  induction gs with
  | nil => simp [deleteFirstGeofence]
  | cons g rest ih =>
      unfold deleteFirstGeofence
      by_cases h : g.event = id
      · rw [if_pos h]; exact List.sublist_cons_self g rest
      · rw [if_neg h]; exact ih.cons₂ g

theorem deleteFirstGeofence_not_mem (gs : List Geofence) (id : String)
    (hnd : (gs.map Geofence.event).Nodup) :
    ∀ g ∈ deleteFirstGeofence gs id, g.event ≠ id := by
  induction gs with
  | nil => intro g hg; simp [deleteFirstGeofence] at hg
  | cons a rest ih =>
      simp only [List.map_cons, List.nodup_cons] at hnd
      intro g hg
      unfold deleteFirstGeofence at hg
      by_cases h : a.event = id
      · rw [if_pos h] at hg
        intro hgid
        exact hnd.1 (by rw [h, ← hgid]; exact List.mem_map_of_mem Geofence.event hg)
      · rw [if_neg h] at hg
        rcases List.mem_cons.mp hg with rfl | hg'
        · exact h
        · exact ih hnd.2 g hg'

theorem deleteFirstGeofence_mem (gs : List Geofence) (id : String) :
    ∀ g ∈ gs, g.event ≠ id → g ∈ deleteFirstGeofence gs id := by
  induction gs with
  | nil => intro g hg; simp at hg
  | cons a rest ih =>
      intro g hg hne
      unfold deleteFirstGeofence
      by_cases h : a.event = id
      · rw [if_pos h]
        rcases List.mem_cons.mp hg with rfl | hg'
        · exact absurd h hne
        · exact hg'
      · rw [if_neg h]
        rcases List.mem_cons.mp hg with rfl | hg'
        · exact List.mem_cons_self g _
        · exact List.mem_cons_of_mem a (ih g hg' hne)

theorem deleteFirstGeofence_eq_of_none (gs : List Geofence) (id : String)
    (h : ∀ g ∈ gs, g.event ≠ id) : deleteFirstGeofence gs id = gs := by
  induction gs with
  | nil => rfl
  | cons a rest ih =>
      unfold deleteFirstGeofence
      rw [if_neg (h a (List.mem_cons_self a rest)),
        ih (fun g hg => h g (List.mem_cons_of_mem a hg))]

theorem deleteFirstEvent_sublist (es : List Event) (id : String) :
    (deleteFirstEvent es id).Sublist es := by
  induction es with
  | nil => simp [deleteFirstEvent]
  | cons e rest ih =>
      unfold deleteFirstEvent
      by_cases h : e.id = id
      · rw [if_pos h]; exact List.sublist_cons_self e rest
      · rw [if_neg h]; exact ih.cons₂ e

theorem deleteFirstEvent_not_mem (es : List Event) (id : String)
    (hnd : (es.map Event.id).Nodup) :
    ∀ e ∈ deleteFirstEvent es id, e.id ≠ id := by
  induction es with
  | nil => intro e he; simp [deleteFirstEvent] at he
  | cons a rest ih =>
      simp only [List.map_cons, List.nodup_cons] at hnd
      intro e he
      unfold deleteFirstEvent at he
      by_cases h : a.id = id
      · rw [if_pos h] at he
        intro heid
        exact hnd.1 (by rw [h, ← heid]; exact List.mem_map_of_mem Event.id he)
      · rw [if_neg h] at he
        rcases List.mem_cons.mp he with rfl | he'
        · exact h
        · exact ih hnd.2 e he'

theorem deleteFirstEvent_mem (es : List Event) (id : String) :
    ∀ e ∈ es, e.id ≠ id → e ∈ deleteFirstEvent es id := by
  induction es with
  | nil => intro e he; simp at he
  | cons a rest ih =>
      intro e he hne
      unfold deleteFirstEvent
      by_cases h : a.id = id
      · rw [if_pos h]
        rcases List.mem_cons.mp he with rfl | he'
        · exact absurd h hne
        · exact he'
      · rw [if_neg h]
        rcases List.mem_cons.mp he with rfl | he'
        · exact List.mem_cons_self e _
        · exact List.mem_cons_of_mem a (ih e he' hne)

theorem patchFirstGeofence_eq_of_none (gs : List Geofence) (id : String)
    (p : Geofence → Geofence) (h : ∀ g ∈ gs, g.event ≠ id) :
    patchFirstGeofence gs id p = gs := by
  induction gs with
  | nil => rfl
  | cons a rest ih =>
      unfold patchFirstGeofence
      rw [if_neg (h a (List.mem_cons_self a rest)),
        ih (fun g hg => h g (List.mem_cons_of_mem a hg))]

/-- With unique pairings, every geofence of the patched store that is paired
with `id` is the image under the patch of a stored geofence paired with
`id`, provided the patch preserves the pairing key. -/
theorem patchFirstGeofence_mem_eq (gs : List Geofence) (id : String)
    (p : Geofence → Geofence)
    (hnd : (gs.map Geofence.event).Nodup) :
    ∀ g' ∈ patchFirstGeofence gs id p, g'.event = id →
      ∃ g ∈ gs, g.event = id ∧ g' = p g := by
  induction gs with
  | nil => intro g' hg'; simp [patchFirstGeofence] at hg'
  | cons a rest ih =>
      simp only [List.map_cons, List.nodup_cons] at hnd
      intro g' hg' hev
      unfold patchFirstGeofence at hg'
      by_cases h : a.event = id
      · rw [if_pos h] at hg'
        rcases List.mem_cons.mp hg' with rfl | hg''
        · exact ⟨a, List.mem_cons_self a rest, h, rfl⟩
        · exact absurd
            (by rw [h, ← hev]; exact List.mem_map_of_mem Geofence.event hg'')
            hnd.1
      · rw [if_neg h] at hg'
        rcases List.mem_cons.mp hg' with rfl | hg''
        · exact absurd hev h
        · obtain ⟨g, hg, hgid, hgp⟩ := ih hnd.2 g' hg'' hev
          exact ⟨g, List.mem_cons_of_mem a hg, hgid, hgp⟩

/-- C1: a Create request by a caller whose role is neither `"ngo"` nor
`"admin"` fails with a 403 Forbidden error and leaves both stores exactly as
they were: no Event and no Geofence is persisted. -/
theorem createEvent_forbidden (user : User) (body : ReqBody) (db : DB)
    (newEventId newGeofenceId : String)
    (h1 : user.role ≠ "ngo") (h2 : user.role ≠ "admin") :
    createEvent user body db newEventId newGeofenceId =
      (.error ⟨"User with role " ++ user.role ++
          " is not authorized to create an event", 403⟩, db) := by
  unfold createEvent
  simp [h1, h2]

theorem createEvent_forbidden_witness :
    createEvent { id := "u1", role := "citizen" }
        { title := some "Cleanup drive", coordinates := some ⟨28, 77⟩ }
        { events := [], geofences := [] } "e1" "g1" =
      (.error ⟨"User with role citizen is not authorized to create an event",
          403⟩, { events := [], geofences := [] }) :=
  createEvent_forbidden { id := "u1", role := "citizen" }
    { title := some "Cleanup drive", coordinates := some ⟨28, 77⟩ }
    { events := [], geofences := [] } "e1" "g1" (by decide) (by decide)

/-- C2: on every successful Create, the persisted Event's organizer is the
caller's id, whatever `organizer` value the request body carried (the
handler overwrites `req.body.organizer` before persisting). -/
theorem createEvent_organizer (user : User) (body : ReqBody) (db : DB)
    (newEventId newGeofenceId : String) (ev : Event) (db' : DB)
    (h : createEvent user body db newEventId newGeofenceId = (.ok ev, db')) :
    ev.organizer = user.id ∧ ev ∈ db'.events := by
  obtain ⟨horg, _, hev, _⟩ :=
    createEvent_ok user body db newEventId newGeofenceId ev db' h
  exact ⟨horg, by rw [hev]; simp⟩

theorem createEvent_organizer_witness :
    ∃ ev db',
      createEvent { id := "u1", role := "ngo" }
          { title := some "Cleanup drive", coordinates := some ⟨28, 77⟩,
            organizer := some "mallory" }
          { events := [], geofences := [] } "e1" "g1" = (.ok ev, db') ∧
      ev.organizer = "u1" ∧ ev ∈ db'.events := by
  refine ⟨{ id := "e1", title := "Cleanup drive", category := "", date := 0,
            status := "upcoming", coordinates := ⟨28, 77⟩, organizer := "u1" },
          _, rfl, ?_⟩
  exact createEvent_organizer { id := "u1", role := "ngo" }
    { title := some "Cleanup drive", coordinates := some ⟨28, 77⟩,
      organizer := some "mallory" }
    { events := [], geofences := [] } "e1" "g1" _ _ rfl

/-- C3 fails as stated: `updateEvent` hands the whole request body to the
store, so an authorized Update whose body carries an `organizer` value
rewrites the stored organizer.  Here the event was created by `"alice"`
(so its organizer was `"alice"`), and a single Update by `"alice"` leaves
the persisted Event with organizer `"bob"`. -/
theorem updateEvent_organizer_cex :
    (updateEvent { id := "alice", role := "ngo" } "e1"
        { organizer := some "bob" }
        (createEvent { id := "alice", role := "ngo" }
            { title := some "Cleanup drive", coordinates := some ⟨28, 77⟩ }
            { events := [], geofences := [] } "e1" "g1").2).2.events.map
        Event.organizer = ["bob"] ∧
    "bob" ≠ "alice" := by
  exact ⟨rfl, by decide⟩

/-- C3 amended: the organizer-equals-creator invariant is established at
creation, and an Update preserves every stored organizer when the request
body carries no `organizer` field; a body that does carry one overwrites the
stored value. -/
theorem organizer_established_and_preserved
    (user : User) (body : ReqBody) (db : DB)
    (newEventId newGeofenceId : String) (ev : Event) (db1 : DB)
    (hc : createEvent user body db newEventId newGeofenceId = (.ok ev, db1))
    (user2 : User) (id2 : String) (body2 : ReqBody)
    (hb : body2.organizer = none)
    (hnd : (db1.events.map Event.id).Nodup) :
    ev.organizer = user.id ∧
    (updateEvent user2 id2 body2 db1).2.events.map Event.organizer =
      db1.events.map Event.organizer := by
  obtain ⟨horg, -, -, -⟩ :=
    createEvent_ok user body db newEventId newGeofenceId ev db1 hc
  refine ⟨horg, ?_⟩
  unfold updateEvent
  split
  · rfl
  · rename_i ev0 hf
    split
    · rfl
    · show List.map Event.organizer
          (List.map (fun e => if e.id = id2 then applyBody ev0 body2 else e)
            db1.events) = List.map Event.organizer db1.events
      rw [List.map_map]
      apply List.map_congr_left
      intro e he
      by_cases hid : e.id = id2
      · have heq : e = ev0 := findEvent_unique id2 ev0 db1.events hnd hf e he hid
        subst heq
        simp [hid, Function.comp, applyBody, hb]
      · simp [hid, Function.comp]

theorem organizer_established_and_preserved_witness :
    ∃ ev db1,
      createEvent { id := "alice", role := "ngo" }
          { title := some "Cleanup drive", coordinates := some ⟨28, 77⟩ }
          { events := [], geofences := [] } "e1" "g1" = (.ok ev, db1) ∧
      ev.organizer = "alice" ∧
      (updateEvent { id := "alice", role := "ngo" } "e1"
          { date := some 5 } db1).2.events.map Event.organizer =
        db1.events.map Event.organizer := by
  refine ⟨{ id := "e1", title := "Cleanup drive", category := "", date := 0,
            status := "upcoming", coordinates := ⟨28, 77⟩, organizer := "alice" },
          _, rfl, ?_⟩
  exact organizer_established_and_preserved
    { id := "alice", role := "ngo" }
    { title := some "Cleanup drive", coordinates := some ⟨28, 77⟩ }
    { events := [], geofences := [] } "e1" "g1" _ _ rfl
    { id := "alice", role := "ngo" } "e1" { date := some 5 } rfl (by decide)

/-- C4 fails as stated on a supplied-but-falsy radius: a successful Create
whose body carries `geofenceRadius = 0` persists a Geofence with radius 500,
not the supplied 0. -/
theorem createEvent_geofence_cex :
    (createEvent { id := "alice", role := "ngo" }
        { title := some "Cleanup drive", coordinates := some ⟨28, 77⟩,
          geofenceRadius := some 0 }
        { events := [], geofences := [] } "e1" "g1").1 =
      .ok { id := "e1", title := "Cleanup drive", category := "", date := 0,
            status := "upcoming", coordinates := ⟨28, 77⟩,
            organizer := "alice" } ∧
    (createEvent { id := "alice", role := "ngo" }
        { title := some "Cleanup drive", coordinates := some ⟨28, 77⟩,
          geofenceRadius := some 0 }
        { events := [], geofences := [] } "e1" "g1").2.geofences.map
      Geofence.radius = [500] ∧
    (500 : ℚ) ≠ 0 := by
  refine ⟨rfl, rfl, by norm_num⟩

/-- C4 amended: for every successful Create (with a freshly generated event
id), exactly one Geofence is paired with the new Event; its center equals
the Event's coordinates, its radius is the request's `geofenceRadius` when
that is supplied and nonzero and 500 otherwise (`jsOrNum`), and its
`trafficImpact.level` is the request's `trafficImpact` when supplied and
nonempty and `"low"` otherwise (`jsOrStr`) — the defaults also apply to
supplied falsy values. -/
theorem createEvent_geofence (user : User) (body : ReqBody) (db : DB)
    (newEventId newGeofenceId : String) (ev : Event) (db' : DB)
    (h : createEvent user body db newEventId newGeofenceId = (.ok ev, db'))
    (hfresh : ∀ g ∈ db.geofences, g.event ≠ newEventId) :
    (db'.geofences.filter (fun g => g.event == ev.id)).length = 1 ∧
    ∀ g ∈ db'.geofences, g.event = ev.id →
      g.center = ev.coordinates ∧
      g.radius = jsOrNum body.geofenceRadius 500 ∧
      g.trafficLevel = jsOrStr body.trafficImpact "low" := by
  obtain ⟨-, hid, -, hg⟩ :=
    createEvent_ok user body db newEventId newGeofenceId ev db' h
  rw [hg]
  constructor
  · rw [List.filter_append]
    have h1 : db.geofences.filter (fun g => g.event == ev.id) = [] := by
      rw [List.filter_eq_nil_iff]
      intro g hgm
      simp only [beq_iff_eq]
      rw [hid]
      exact hfresh g hgm
    rw [h1]
    simp
  · intro g hgm hgev
    rcases List.mem_append.mp hgm with hmem | hmem
    · exact absurd (hgev.trans hid) (hfresh g hmem)
    · simp only [List.mem_singleton] at hmem
      subst hmem
      exact ⟨rfl, rfl, rfl⟩

theorem createEvent_geofence_witness :
    ∃ ev db',
      createEvent { id := "alice", role := "ngo" }
          { title := some "Cleanup drive", coordinates := some ⟨28, 77⟩,
            geofenceRadius := some 250, trafficImpact := some "high" }
          { events := [], geofences := [] } "e1" "g1" = (.ok ev, db') ∧
      (db'.geofences.filter (fun g => g.event == ev.id)).length = 1 ∧
      ∀ g ∈ db'.geofences, g.event = ev.id →
        g.center = ev.coordinates ∧
        g.radius = jsOrNum (some 250) 500 ∧
        g.trafficLevel = jsOrStr (some "high") "low" := by
  refine ⟨{ id := "e1", title := "Cleanup drive", category := "", date := 0,
            status := "upcoming", coordinates := ⟨28, 77⟩, organizer := "alice" },
          _, rfl, ?_⟩
  exact createEvent_geofence { id := "alice", role := "ngo" }
    { title := some "Cleanup drive", coordinates := some ⟨28, 77⟩,
      geofenceRadius := some 250, trafficImpact := some "high" }
    { events := [], geofences := [] } "e1" "g1" _ _ rfl
    (by intro g hg; simp at hg)

/-- C5 fails as stated on a supplied-but-falsy radius: an authorized Update
carrying new coordinates and `geofenceRadius = 0` sets the paired Geofence's
radius to 500, not to the supplied 0 (the prior radius here was 42). -/
theorem updateEvent_geofence_cex :
    (updateEvent { id := "alice", role := "ngo" } "e1"
        { coordinates := some ⟨3, 4⟩, geofenceRadius := some 0 }
        { events := [{ id := "e1", title := "t", category := "c", date := 0,
                       status := "upcoming", coordinates := ⟨1, 2⟩,
                       organizer := "alice" }],
          geofences := [{ id := "g1", event := "e1", radius := 42,
                          center := ⟨1, 2⟩, trafficLevel := "low",
                          trafficDescription := some "d",
                          createdBy := "alice" }] }).2.geofences.map
      Geofence.radius = [500] ∧
    (500 : ℚ) ≠ 0 ∧ (500 : ℚ) ≠ 42 := by
  refine ⟨rfl, by norm_num, by norm_num⟩

/-- C5 amended: on every successful Update whose body carries coordinates,
any Geofence paired with the event ends with center equal to the new
coordinates, radius equal to the request's `geofenceRadius` when supplied
and nonzero and reset to 500 otherwise (`jsOrNum` — also when the supplied
value is falsy), and `trafficImpact.level` equal to the request's
`trafficImpact` when supplied and nonempty and `"low"` otherwise
(`jsOrStr`); when no Geofence is paired with the event the geofence store is
untouched and the operation still succeeds. -/
theorem updateEvent_geofence (user : User) (id : String) (body : ReqBody)
    (db : DB) (c : Coordinates) (ev : Event) (db' : DB)
    (hco : body.coordinates = some c)
    (h : updateEvent user id body db = (.ok ev, db'))
    (hnd : (db.geofences.map Geofence.event).Nodup) :
    (∀ g ∈ db'.geofences, g.event = ev.id →
      g.center = c ∧
      g.radius = jsOrNum body.geofenceRadius 500 ∧
      g.trafficLevel = jsOrStr body.trafficImpact "low") ∧
    ((∀ g ∈ db.geofences, g.event ≠ ev.id) → db'.geofences = db.geofences) := by
  obtain ⟨ev0, -, -, -, -, hg⟩ := updateEvent_ok user id body db ev db' h
  rw [hco] at hg
  constructor
  · intro g hgm hgev
    rw [hg] at hgm
    obtain ⟨g0, -, -, rfl⟩ :=
      patchFirstGeofence_mem_eq db.geofences ev.id
        (fun g => geofencePatch g c body) hnd g hgm hgev
    refine ⟨?_, rfl, rfl⟩
    cases c
    rfl
  · intro hnone
    rw [hg]
    exact patchFirstGeofence_eq_of_none db.geofences ev.id _ hnone

theorem updateEvent_geofence_witness :
    ∃ ev db',
      updateEvent { id := "alice", role := "ngo" } "e1"
          { coordinates := some ⟨3, 4⟩ }
          { events := [{ id := "e1", title := "t", category := "c", date := 0,
                         status := "upcoming", coordinates := ⟨1, 2⟩,
                         organizer := "alice" }],
            geofences := [{ id := "g1", event := "e1", radius := 42,
                            center := ⟨1, 2⟩, trafficLevel := "high",
                            trafficDescription := some "d",
                            createdBy := "alice" }] } = (.ok ev, db') ∧
      ∀ g ∈ db'.geofences, g.event = ev.id →
        g.center = ⟨3, 4⟩ ∧
        g.radius = jsOrNum none 500 ∧
        g.trafficLevel = jsOrStr none "low" := by
  refine ⟨{ id := "e1", title := "t", category := "c", date := 0,
            status := "upcoming", coordinates := ⟨3, 4⟩,
            organizer := "alice" }, _, rfl, ?_⟩
  exact (updateEvent_geofence { id := "alice", role := "ngo" } "e1"
    { coordinates := some ⟨3, 4⟩ }
    { events := [{ id := "e1", title := "t", category := "c", date := 0,
                   status := "upcoming", coordinates := ⟨1, 2⟩,
                   organizer := "alice" }],
      geofences := [{ id := "g1", event := "e1", radius := 42,
                      center := ⟨1, 2⟩, trafficLevel := "high",
                      trafficDescription := some "d",
                      createdBy := "alice" }] } ⟨3, 4⟩ _ _ rfl rfl
    (by decide)).1

/-- C6: for both Update and Delete, a target id that resolves to no Event
yields a 404 for every caller — the role and ownership of the caller are
universally quantified, so the existence check decides before any
authorization check — and an existing target whose caller is neither the
organizer nor an admin yields a 403; in every such case both stores are
returned exactly as they were, so no mutation occurred. -/
theorem updateDelete_notFound_forbidden (user : User) (id : String)
    (body : ReqBody) (db : DB) :
    (findEvent db id = none →
      updateEvent user id body db =
        (.error ⟨"Event not found with id of " ++ id, 404⟩, db) ∧
      deleteEvent user id db =
        (.error ⟨"Event not found with id of " ++ id, 404⟩, db)) ∧
    (∀ ev, findEvent db id = some ev →
      ev.organizer ≠ user.id → user.role ≠ "admin" →
      updateEvent user id body db =
        (.error ⟨"User " ++ user.id ++
            " is not authorized to update this event", 403⟩, db) ∧
      deleteEvent user id db =
        (.error ⟨"User " ++ user.id ++
            " is not authorized to delete this event", 403⟩, db)) := by
  constructor
  · intro hf
    constructor
    · unfold updateEvent; rw [hf]
    · unfold deleteEvent; rw [hf]
  · intro ev hf h1 h2
    constructor
    · unfold updateEvent; rw [hf]; exact if_pos ⟨h1, h2⟩
    · unfold deleteEvent; rw [hf]; exact if_pos ⟨h1, h2⟩

theorem updateDelete_notFound_forbidden_witness :
    (updateEvent { id := "bob", role := "user" } "missing" { date := some 5 }
        { events := [{ id := "e1", title := "t", category := "c", date := 0,
                       status := "upcoming", coordinates := ⟨1, 2⟩,
                       organizer := "alice" }], geofences := [] } =
      (.error ⟨"Event not found with id of missing", 404⟩,
        { events := [{ id := "e1", title := "t", category := "c", date := 0,
                       status := "upcoming", coordinates := ⟨1, 2⟩,
                       organizer := "alice" }], geofences := [] })) ∧
    (deleteEvent { id := "bob", role := "user" } "e1"
        { events := [{ id := "e1", title := "t", category := "c", date := 0,
                       status := "upcoming", coordinates := ⟨1, 2⟩,
                       organizer := "alice" }], geofences := [] } =
      (.error ⟨"User bob is not authorized to delete this event", 403⟩,
        { events := [{ id := "e1", title := "t", category := "c", date := 0,
                       status := "upcoming", coordinates := ⟨1, 2⟩,
                       organizer := "alice" }], geofences := [] })) := by
  constructor
  · exact ((updateDelete_notFound_forbidden { id := "bob", role := "user" }
      "missing" { date := some 5 }
      { events := [{ id := "e1", title := "t", category := "c", date := 0,
                     status := "upcoming", coordinates := ⟨1, 2⟩,
                     organizer := "alice" }], geofences := [] }).1 rfl).1
  · exact ((updateDelete_notFound_forbidden { id := "bob", role := "user" }
      "e1" { date := some 5 }
      { events := [{ id := "e1", title := "t", category := "c", date := 0,
                     status := "upcoming", coordinates := ⟨1, 2⟩,
                     organizer := "alice" }], geofences := [] }).2
      { id := "e1", title := "t", category := "c", date := 0,
        status := "upcoming", coordinates := ⟨1, 2⟩, organizer := "alice" }
      rfl (by decide) (by decide)).2

/-- C7: an authorized Delete of an existing Event succeeds with an empty
payload; afterwards no stored Geofence pairs the Event and no stored Event
has its id, nothing was added to either store, every other document
survives, and when no paired Geofence existed the geofence store is returned
untouched (the geofence deletion was a no-op) while the Delete still
succeeds. -/
theorem deleteEvent_removes_pair (user : User) (id : String) (db : DB)
    (ev : Event)
    (hf : findEvent db id = some ev)
    (hauth : ev.organizer = user.id ∨ user.role = "admin")
    (hwf : db.wf) :
    (deleteEvent user id db).1 = .ok () ∧
    (deleteEvent user id db).2.events.Sublist db.events ∧
    (deleteEvent user id db).2.geofences.Sublist db.geofences ∧
    (∀ e ∈ (deleteEvent user id db).2.events, e.id ≠ ev.id) ∧
    (∀ g ∈ (deleteEvent user id db).2.geofences, g.event ≠ ev.id) ∧
    (∀ e ∈ db.events, e.id ≠ ev.id → e ∈ (deleteEvent user id db).2.events) ∧
    (∀ g ∈ db.geofences, g.event ≠ ev.id →
      g ∈ (deleteEvent user id db).2.geofences) ∧
    ((∀ g ∈ db.geofences, g.event ≠ ev.id) →
      (deleteEvent user id db).2.geofences = db.geofences) := by
  have hna : ¬(ev.organizer ≠ user.id ∧ user.role ≠ "admin") := by
    rintro ⟨ha, hb⟩
    rcases hauth with hg | hg
    · exact ha hg
    · exact hb hg
  have hres : deleteEvent user id db =
      (.ok (), DB.mk (deleteFirstEvent db.events ev.id)
        (deleteFirstGeofence db.geofences ev.id)) := by
    unfold deleteEvent
    rw [hf]
    exact if_neg hna
  rw [hres]
  exact ⟨rfl,
    deleteFirstEvent_sublist db.events ev.id,
    deleteFirstGeofence_sublist db.geofences ev.id,
    deleteFirstEvent_not_mem db.events ev.id hwf.1,
    deleteFirstGeofence_not_mem db.geofences ev.id hwf.2,
    deleteFirstEvent_mem db.events ev.id,
    deleteFirstGeofence_mem db.geofences ev.id,
    deleteFirstGeofence_eq_of_none db.geofences ev.id⟩

theorem deleteEvent_removes_pair_witness :
    (deleteEvent { id := "root", role := "admin" } "e1"
        { events := [{ id := "e1", title := "t", category := "c", date := 0,
                       status := "upcoming", coordinates := ⟨1, 2⟩,
                       organizer := "alice" }],
          geofences := [] }).1 = .ok () ∧
    (deleteEvent { id := "root", role := "admin" } "e1"
        { events := [{ id := "e1", title := "t", category := "c", date := 0,
                       status := "upcoming", coordinates := ⟨1, 2⟩,
                       organizer := "alice" }],
          geofences := [] }).2.geofences = [] := by
  constructor
  · exact (deleteEvent_removes_pair { id := "root", role := "admin" } "e1"
      { events := [{ id := "e1", title := "t", category := "c", date := 0,
                     status := "upcoming", coordinates := ⟨1, 2⟩,
                     organizer := "alice" }], geofences := [] }
      { id := "e1", title := "t", category := "c", date := 0,
        status := "upcoming", coordinates := ⟨1, 2⟩, organizer := "alice" }
      rfl (Or.inr rfl) (by decide)).1
  · exact (deleteEvent_removes_pair { id := "root", role := "admin" } "e1"
      { events := [{ id := "e1", title := "t", category := "c", date := 0,
                     status := "upcoming", coordinates := ⟨1, 2⟩,
                     organizer := "alice" }], geofences := [] }
      { id := "e1", title := "t", category := "c", date := 0,
        status := "upcoming", coordinates := ⟨1, 2⟩, organizer := "alice" }
      rfl (Or.inr rfl) (by decide)).2.2.2.2.2.2.2 (by intro g hg; simp at hg)

/-- C8: `getEventsInRadius` filters the store by angular distance at most
`distance / 6378` from the query point, for any angular-distance function
the geo store implements.  When `distance = 6378` the cap's angular radius
is exactly 1 radian; when `distance = 0` and the distance function is
point-separating (zero exactly on equal coordinate pairs, never negative),
only Events whose coordinates equal the query point are returned. -/
theorem getEventsInRadius_spec (angDist : Coordinates → Coordinates → ℚ)
    (db : DB) (latitude longitude distance : ℚ)
    (hsep : ∀ p q, angDist p q = 0 ↔ p = q)
    (hnonneg : ∀ p q, 0 ≤ angDist p q) :
    (∀ e, e ∈ getEventsInRadius angDist db latitude longitude distance ↔
      e ∈ db.events ∧
        angDist ⟨latitude, longitude⟩ e.coordinates ≤ distance / 6378) ∧
    (distance = 6378 →
      ∀ e, e ∈ getEventsInRadius angDist db latitude longitude distance ↔
        e ∈ db.events ∧ angDist ⟨latitude, longitude⟩ e.coordinates ≤ 1) ∧
    (distance = 0 →
      ∀ e ∈ getEventsInRadius angDist db latitude longitude distance,
        e.coordinates = ⟨latitude, longitude⟩) := by
  have hmem : ∀ e,
      e ∈ getEventsInRadius angDist db latitude longitude distance ↔
      e ∈ db.events ∧
        angDist ⟨latitude, longitude⟩ e.coordinates ≤ distance / 6378 := by
    intro e
    unfold getEventsInRadius
    rw [List.mem_filter]
    simp
  refine ⟨hmem, ?_, ?_⟩
  · intro h6378 e
    rw [hmem e, h6378]
    norm_num
  · intro h0 e he
    obtain ⟨-, hle⟩ := (hmem e).mp he
    rw [h0] at hle
    norm_num at hle
    have hzero : angDist ⟨latitude, longitude⟩ e.coordinates = 0 :=
      le_antisymm hle (hnonneg _ _)
    exact ((hsep _ _).mp hzero).symm

theorem getEventsInRadius_spec_witness :
    ((⟨"e1", "t", "c", 0, "upcoming", ⟨40, -75⟩, "alice"⟩ : Event) ∈
      getEventsInRadius (fun p q => if p = q then 0 else 1)
        { events := [⟨"e1", "t", "c", 0, "upcoming", ⟨40, -75⟩, "alice"⟩,
                     ⟨"e2", "t", "c", 0, "upcoming", ⟨50, 8⟩, "bob"⟩],
          geofences := [] } 40 (-75) 0) ∧
    (∀ e ∈ getEventsInRadius (fun p q => if p = q then 0 else 1)
        { events := [⟨"e1", "t", "c", 0, "upcoming", ⟨40, -75⟩, "alice"⟩,
                     ⟨"e2", "t", "c", 0, "upcoming", ⟨50, 8⟩, "bob"⟩],
          geofences := [] } 40 (-75) 0,
      e.coordinates = ⟨40, -75⟩) := by
  have hsep : ∀ p q : Coordinates,
      (if p = q then (0 : ℚ) else 1) = 0 ↔ p = q := by
    intro p q
    by_cases h : p = q <;> simp [h]
  have hnonneg : ∀ p q : Coordinates,
      (0 : ℚ) ≤ if p = q then 0 else 1 := by
    intro p q
    by_cases h : p = q <;> simp [h]
  constructor
  · exact ((getEventsInRadius_spec (fun p q => if p = q then 0 else 1)
      { events := [⟨"e1", "t", "c", 0, "upcoming", ⟨40, -75⟩, "alice"⟩,
                   ⟨"e2", "t", "c", 0, "upcoming", ⟨50, 8⟩, "bob"⟩],
        geofences := [] } 40 (-75) 0 hsep hnonneg).1 _).mpr
      ⟨by simp, by norm_num⟩
  · exact (getEventsInRadius_spec (fun p q => if p = q then 0 else 1)
      { events := [⟨"e1", "t", "c", 0, "upcoming", ⟨40, -75⟩, "alice"⟩,
                   ⟨"e2", "t", "c", 0, "upcoming", ⟨50, 8⟩, "bob"⟩],
        geofences := [] } 40 (-75) 0 hsep hnonneg).2.2 rfl

/-- C9: `getUpcomingEvents` returns at most 10 Events, each drawn from the
store with date at least the query time and status `"upcoming"`, in
ascending date order. -/
theorem getUpcomingEvents_spec (now : ℤ) (db : DB) :
    (getUpcomingEvents now db).length ≤ 10 ∧
    (∀ e ∈ getUpcomingEvents now db,
      e ∈ db.events ∧ now ≤ e.date ∧ e.status = "upcoming") ∧
    List.Sorted dateLE (getUpcomingEvents now db) := by
  refine ⟨?_, ?_, ?_⟩
  · unfold getUpcomingEvents
    exact List.length_take_le 10 _
  · intro e he
    unfold getUpcomingEvents at he
    have he' := List.take_subset 10 _ he
    rw [List.mem_insertionSort] at he'
    rw [List.mem_filter] at he'
    obtain ⟨hmem, hcond⟩ := he'
    simp only [Bool.and_eq_true, decide_eq_true_eq, beq_iff_eq] at hcond
    exact ⟨hmem, hcond.1, hcond.2⟩
  · unfold getUpcomingEvents
    exact (List.sorted_insertionSort dateLE _).sublist (List.take_sublist 10 _)

theorem getUpcomingEvents_spec_witness :
    (getUpcomingEvents 100
        { events := [⟨"e1", "t", "c", 300, "upcoming", ⟨1, 2⟩, "alice"⟩,
                     ⟨"e2", "t", "c", 200, "upcoming", ⟨1, 2⟩, "bob"⟩,
                     ⟨"e3", "t", "c", 50, "upcoming", ⟨1, 2⟩, "carol"⟩,
                     ⟨"e4", "t", "c", 400, "cancelled", ⟨1, 2⟩, "dave"⟩],
          geofences := [] }).length ≤ 10 ∧
    (100 : ℤ) ≤
      (⟨"e2", "t", "c", 200, "upcoming", ⟨1, 2⟩, "bob"⟩ : Event).date := by
  constructor
  · exact (getUpcomingEvents_spec 100
      { events := [⟨"e1", "t", "c", 300, "upcoming", ⟨1, 2⟩, "alice"⟩,
                   ⟨"e2", "t", "c", 200, "upcoming", ⟨1, 2⟩, "bob"⟩,
                   ⟨"e3", "t", "c", 50, "upcoming", ⟨1, 2⟩, "carol"⟩,
                   ⟨"e4", "t", "c", 400, "cancelled", ⟨1, 2⟩, "dave"⟩],
        geofences := [] }).1
  · exact ((getUpcomingEvents_spec 100
      { events := [⟨"e1", "t", "c", 300, "upcoming", ⟨1, 2⟩, "alice"⟩,
                   ⟨"e2", "t", "c", 200, "upcoming", ⟨1, 2⟩, "bob"⟩,
                   ⟨"e3", "t", "c", 50, "upcoming", ⟨1, 2⟩, "carol"⟩,
                   ⟨"e4", "t", "c", 400, "cancelled", ⟨1, 2⟩, "dave"⟩],
        geofences := [] }).2.1
      ⟨"e2", "t", "c", 200, "upcoming", ⟨1, 2⟩, "bob"⟩ (by decide)).2.1

/-- On a successful create, any geofence of the new store that was not
already stored carries the `jsOrNum`/`jsOrStr` defaulted radius and level of
the request body. -/
theorem createEvent_new_geofence_fields (user : User) (body : ReqBody)
    (db : DB) (newEventId newGeofenceId : String) (ev : Event) (db' : DB)
    (hc : createEvent user body db newEventId newGeofenceId = (.ok ev, db')) :
    ∀ g ∈ db'.geofences, g ∉ db.geofences →
      g.radius = jsOrNum body.geofenceRadius 500 ∧
      g.trafficLevel = jsOrStr body.trafficImpact "low" := by
  obtain ⟨-, -, -, hgs⟩ :=
    createEvent_ok user body db newEventId newGeofenceId ev db' hc
  intro g hg hgnot
  rw [hgs] at hg
  rcases List.mem_append.mp hg with hmem | hmem
  · exact absurd hmem hgnot
  · simp only [List.mem_singleton] at hmem
    subst hmem
    exact ⟨rfl, rfl⟩

/-- On a successful coordinate-bearing update with uniquely paired
geofences, any geofence of the new store paired with the event carries the
`jsOrNum`/`jsOrStr` defaulted radius and level of the request body. -/
theorem updateEvent_patched_geofence_fields (user : User) (id : String)
    (body : ReqBody) (db : DB) (c : Coordinates) (ev : Event) (db' : DB)
    (hnd : (db.geofences.map Geofence.event).Nodup)
    (hco : body.coordinates = some c)
    (hu : updateEvent user id body db = (.ok ev, db')) :
    ∀ g ∈ db'.geofences, g.event = ev.id →
      g.radius = jsOrNum body.geofenceRadius 500 ∧
      g.trafficLevel = jsOrStr body.trafficImpact "low" := by
  obtain ⟨ev0, -, -, -, -, hgs⟩ := updateEvent_ok user id body db ev db' hu
  rw [hco] at hgs
  intro g hg hgev
  rw [hgs] at hg
  obtain ⟨g0, -, -, rfl⟩ :=
    patchFirstGeofence_mem_eq db.geofences ev.id
      (fun g => geofencePatch g c body) hnd g hg hgev
  exact ⟨rfl, rfl⟩

/-- C10: the geofence defaults apply independently to each supplied falsy
field, not only to omitted ones: any Create, or coordinate-bearing Update,
whose body carries `geofenceRadius = 0` persists radius 500 on the written
Geofence whatever its `trafficImpact`, and any whose body carries
`trafficImpact = ""` persists level `"low"` whatever its radius. -/
theorem geofence_defaults_falsy (user : User) (id : String) (body : ReqBody)
    (db : DB) (newEventId newGeofenceId : String) :
    (body.geofenceRadius = some 0 →
      (∀ ev db', createEvent user body db newEventId newGeofenceId =
          (.ok ev, db') →
        ∀ g ∈ db'.geofences, g ∉ db.geofences → g.radius = 500) ∧
      ((db.geofences.map Geofence.event).Nodup →
        ∀ c, body.coordinates = some c →
        ∀ ev db', updateEvent user id body db = (.ok ev, db') →
        ∀ g ∈ db'.geofences, g.event = ev.id → g.radius = 500)) ∧
    (body.trafficImpact = some "" →
      (∀ ev db', createEvent user body db newEventId newGeofenceId =
          (.ok ev, db') →
        ∀ g ∈ db'.geofences, g ∉ db.geofences → g.trafficLevel = "low") ∧
      ((db.geofences.map Geofence.event).Nodup →
        ∀ c, body.coordinates = some c →
        ∀ ev db', updateEvent user id body db = (.ok ev, db') →
        ∀ g ∈ db'.geofences, g.event = ev.id → g.trafficLevel = "low")) := by
  constructor
  · intro hr
    constructor
    · intro ev db' hc g hg hgnot
      have h := (createEvent_new_geofence_fields user body db newEventId
        newGeofenceId ev db' hc g hg hgnot).1
      rw [hr] at h
      simpa [jsOrNum] using h
    · intro hnd c hco ev db' hu g hg hgev
      have h := (updateEvent_patched_geofence_fields user id body db c ev db'
        hnd hco hu g hg hgev).1
      rw [hr] at h
      simpa [jsOrNum] using h
  · intro ht
    constructor
    · intro ev db' hc g hg hgnot
      have h := (createEvent_new_geofence_fields user body db newEventId
        newGeofenceId ev db' hc g hg hgnot).2
      rw [ht] at h
      simpa [jsOrStr] using h
    · intro hnd c hco ev db' hu g hg hgev
      have h := (updateEvent_patched_geofence_fields user id body db c ev db'
        hnd hco hu g hg hgev).2
      rw [ht] at h
      simpa [jsOrStr] using h

theorem geofence_defaults_falsy_witness :
    (∀ g ∈ (createEvent { id := "alice", role := "ngo" }
        { title := some "t", coordinates := some ⟨1, 2⟩,
          geofenceRadius := some 0, trafficImpact := some "high" }
        { events := [], geofences := [] } "e1" "g1").2.geofences,
      g.radius = 500) ∧
    (∀ g ∈ (updateEvent { id := "alice", role := "ngo" } "e1"
        { coordinates := some ⟨3, 4⟩, geofenceRadius := some 250,
          trafficImpact := some "" }
        { events := [{ id := "e1", title := "t", category := "c", date := 0,
                       status := "upcoming", coordinates := ⟨1, 2⟩,
                       organizer := "alice" }],
          geofences := [{ id := "g1", event := "e1", radius := 42,
                          center := ⟨1, 2⟩, trafficLevel := "high",
                          trafficDescription := some "d",
                          createdBy := "alice" }] }).2.geofences,
      g.event = "e1" → g.trafficLevel = "low") := by
  constructor
  · intro g hg
    exact ((geofence_defaults_falsy { id := "alice", role := "ngo" } "e1"
      { title := some "t", coordinates := some ⟨1, 2⟩,
        geofenceRadius := some 0, trafficImpact := some "high" }
      { events := [], geofences := [] } "e1" "g1").1 rfl).1
      _ _ rfl g hg (by simp)
  · intro g hg hgev
    exact ((geofence_defaults_falsy { id := "alice", role := "ngo" } "e1"
      { coordinates := some ⟨3, 4⟩, geofenceRadius := some 250,
        trafficImpact := some "" }
      { events := [{ id := "e1", title := "t", category := "c", date := 0,
                     status := "upcoming", coordinates := ⟨1, 2⟩,
                     organizer := "alice" }],
        geofences := [{ id := "g1", event := "e1", radius := 42,
                        center := ⟨1, 2⟩, trafficLevel := "high",
                        trafficDescription := some "d",
                        createdBy := "alice" }] } "eX" "gX").2 rfl).2
      (by decide) ⟨3, 4⟩ rfl
      { id := "e1", title := "t", category := "c", date := 0,
        status := "upcoming", coordinates := ⟨3, 4⟩, organizer := "alice" }
      _ rfl g hg hgev
